import Mathlib

/-!
Shallow embedding of the ParkingLot Flask API (src/pyapi.py).

The file embeds the detection-to-decision pipeline of the repository:
label classification via the static label sets, spot counting
(`count_spots`), the annotation renderer (`draw_detections`, modelled
over an explicit buffer heap so that in-place OpenCV mutation is
observable), and the HTTP routes `/detect` and `/get_image` with the
file-backed last-result cache modelled as explicit server state.

External collaborators (the YOLO detector, the image codec, the text
metric `cv2.getTextSize`, and the float formatter for confidences) are
parameters of the embedded functions, exactly as the spec treats them:
opaque functions at the boundary.
-/

namespace ParkingLot

/-- Labels counted as free parking spots (pyapi.py line 42). -/
def FREE_LABELS : List String := ["free", "open", "vacant", "empty", "available"]

/-- Labels counted as occupied parking spots (pyapi.py line 43). -/
def OCC_LABELS : List String := ["occupied", "taken", "parked", "blocked"]

/-- Python's `str.lower()` as used on the label strings: per-character
ASCII case folding over the string's characters (kernel-reducible, unlike
`String.toLower`, and identical to it on these ASCII vocabularies). -/
def pyLower (s : String) : String := ⟨s.data.map Char.toLower⟩

/-- The three semantic occupancy categories of the spec. -/
inductive Classification
  | Free
  | Occupied
  | Unknown
deriving DecidableEq

/-- Classification of a raw class-label string: case-fold, then test
membership in `FREE_LABELS` and `OCC_LABELS` in that order; anything
else is `Unknown` (the inline test at pyapi.py lines 69/71 and 121/124-127). -/
def classify (label : String) : Classification :=
  let lbl := pyLower label
  if FREE_LABELS.contains lbl then Classification.Free
  else if OCC_LABELS.contains lbl then Classification.Occupied
  else Classification.Unknown

/-- One detection box as produced by the detector: pixel coordinates
(as rationals, standing for the floats of `boxes.xyxy`), the class index
(`boxes.cls`) and the confidence (`boxes.conf`). -/
structure Box where
  xyxy : ℚ × ℚ × ℚ × ℚ
  cls : Nat
  conf : ℚ
deriving DecidableEq

/-- A YOLO result: the class-index-to-name mapping `result.names` and the
list of detected boxes `result.boxes`. -/
structure YoloResult where
  names : Nat → String
  boxes : List Box

/-- `count_spots` (pyapi.py lines 106-129): fold over the class indices,
mapping each through `names` and lower-casing, incrementing the open
count on a `FREE_LABELS` hit, the occupied count on an `OCC_LABELS` hit,
and skipping anything else. Returns `(open_cnt, occ_cnt)`. -/
def count_spots (result : YoloResult) : Nat × Nat :=
  result.boxes.foldl
    (fun acc b =>
      if FREE_LABELS.contains (pyLower (result.names b.cls)) then (acc.1 + 1, acc.2)
      else if OCC_LABELS.contains (pyLower (result.names b.cls)) then (acc.1, acc.2 + 1)
      else acc)
    (0, 0)

/-- The counting loop of `count_spots` as a function of the name mapping
and the bare class-index sequence only (used to state that counting
reads nothing else of the boxes). -/
def countAux (names : Nat → String) (clsSeq : List Nat) : Nat × Nat :=
  clsSeq.foldl
    (fun acc c =>
      if FREE_LABELS.contains (pyLower (names c)) then (acc.1 + 1, acc.2)
      else if OCC_LABELS.contains (pyLower (names c)) then (acc.1, acc.2 + 1)
      else acc)
    (0, 0)

/-- Number of boxes in a list whose label classifies Free. -/
def freeLen (n : Nat → String) : List Box → Nat
  | [] => 0
  | b :: t => (match classify (n b.cls) with
      | Classification.Free => 1
      | _ => 0) + freeLen n t

/-- Number of boxes in a list whose label classifies Occupied. -/
def occLen (n : Nat → String) : List Box → Nat
  | [] => 0
  | b :: t => (match classify (n b.cls) with
      | Classification.Occupied => 1
      | _ => 0) + occLen n t

/-- Number of boxes in a list whose label does not classify Unknown,
i.e. the detections that participate in the reported total. -/
def countedLen (n : Nat → String) : List Box → Nat
  | [] => 0
  | b :: t => (match classify (n b.cls) with
      | Classification.Unknown => 0
      | _ => 1) + countedLen n t

/-- Images as the free algebra over the OpenCV drawing primitives the
renderer uses: an opaque decoded base image, `cv2.rectangle`,
`cv2.addWeighted` (blend) and `cv2.putText`.  Two image values are equal
iff they were produced by the same primitives with the same parameters. -/
inductive Image
  | base (id : Nat)
  | rect (img : Image) (p1 p2 : Int × Int) (color : Nat × Nat × Nat) (thickness : Int)
  | blend (overlay : Image) (alpha : ℚ) (img : Image) (beta : ℚ) (gamma : ℚ)
  | text (img : Image) (txt : String) (org : Int × Int) (scale : ℚ)
      (color : Nat × Nat × Nat) (thickness : Nat)
deriving DecidableEq

/-- Python `int()` applied to a rational: truncation toward zero
(`map(int, xyxy)` at pyapi.py line 68). -/
def pyInt (q : ℚ) : Int := q.num.tdiv q.den

/-- The body of the per-detection loop of `draw_detections`
(pyapi.py lines 63-101), as a pure function on the working image value.
`textSize` stands for `cv2.getTextSize(txt, FONT_HERSHEY_SIMPLEX, 0.6, 2)`
(returning `(tw, th)`), `fmtConf` for the Python formatting
`f"{conf:.2f}"`. -/
def drawOnePure (textSize : String → Nat × Nat) (fmtConf : ℚ → String)
    (names : Nat → String) (img : Image) (b : Box) : Image :=
  let x1 := pyInt b.xyxy.1
  let y1 := pyInt b.xyxy.2.1
  let x2 := pyInt b.xyxy.2.2.1
  let y2 := pyInt b.xyxy.2.2.2
  let lbl := pyLower (names b.cls)
  if FREE_LABELS.contains lbl then
    let txt := "Free " ++ fmtConf b.conf
    let wh := textSize txt
    let y0 : Int := max 0 (y1 - wh.2 - 6)
    let overlay := Image.rect img (x1, y0) (x1 + wh.1 + 8, y1) (0, 200, 0) (-1)
    let blended := Image.blend overlay (0.35 : ℚ) img (0.65 : ℚ) 0
    let labelled := Image.text blended txt (x1 + 4, y1 - 4) (0.6 : ℚ) (255, 255, 255) 2
    Image.rect labelled (x1, y1) (x2, y2) (0, 200, 0) 3
  else
    Image.rect img (x1, y1) (x2, y2) (50, 50, 200) 1

/-- `draw_detections` as a pure function from the initial working-image
value to the final one: the loop of pyapi.py lines 63-101 folded over
the boxes in detector order. -/
def drawPure (textSize : String → Nat × Nat) (fmtConf : ℚ → String)
    (result : YoloResult) (img : Image) : Image :=
  result.boxes.foldl (drawOnePure textSize fmtConf result.names) img

/-- A heap of image buffers, modelling numpy arrays as mutable objects:
`bufs` maps a buffer id to its current pixel content, ids `≥ next` are
unallocated. -/
structure Heap where
  bufs : Nat → Image
  next : Nat

/-- In-place update of buffer `i` (an OpenCV call writing into an
existing array). -/
def Heap.write (h : Heap) (i : Nat) (v : Image) : Heap :=
  ⟨fun j => if j = i then v else h.bufs j, h.next⟩

/-- Allocation of a fresh buffer holding `v` (`img.copy()`), returning
the new heap and the fresh id. -/
def Heap.alloc (h : Heap) (v : Image) : Heap × Nat :=
  (⟨fun j => if j = h.next then v else h.bufs j, h.next + 1⟩, h.next)

/-- One iteration of the `draw_detections` loop over the buffer heap,
performing exactly the mutations of pyapi.py lines 68-101 on the buffer
`imgId`: in the Free branch allocate `overlay = img.copy()`, draw the
filled label-background rectangle into it, blend it over `img` in place,
put the label text, then draw the bounding box; otherwise just draw the
thin bounding box. -/
def drawDetectionStep (textSize : String → Nat × Nat) (fmtConf : ℚ → String)
    (names : Nat → String) (imgId : Nat) (h : Heap) (b : Box) : Heap :=
  let x1 := pyInt b.xyxy.1
  let y1 := pyInt b.xyxy.2.1
  let x2 := pyInt b.xyxy.2.2.1
  let y2 := pyInt b.xyxy.2.2.2
  let lbl := pyLower (names b.cls)
  if FREE_LABELS.contains lbl then
    let txt := "Free " ++ fmtConf b.conf
    let wh := textSize txt
    let y0 : Int := max 0 (y1 - wh.2 - 6)
    let a := h.alloc (h.bufs imgId)
    let h1 := a.1
    let ovId := a.2
    let h2 := h1.write ovId
      (Image.rect (h1.bufs ovId) (x1, y0) (x1 + wh.1 + 8, y1) (0, 200, 0) (-1))
    let h3 := h2.write imgId
      (Image.blend (h2.bufs ovId) (0.35 : ℚ) (h2.bufs imgId) (0.65 : ℚ) 0)
    let h4 := h3.write imgId
      (Image.text (h3.bufs imgId) txt (x1 + 4, y1 - 4) (0.6 : ℚ) (255, 255, 255) 2)
    h4.write imgId
      (Image.rect (h4.bufs imgId) (x1, y1) (x2, y2) (0, 200, 0) 3)
  else
    h.write imgId
      (Image.rect (h.bufs imgId) (x1, y1) (x2, y2) (50, 50, 200) 1)

/-- `draw_detections(img, result)` over the heap: iterate the loop body
over the boxes, mutating buffer `imgId` (and scratch overlays) in place,
and return the same buffer id (the function returns its argument `img`). -/
def draw_detections (textSize : String → Nat × Nat) (fmtConf : ℚ → String)
    (result : YoloResult) (h : Heap) (imgId : Nat) : Heap × Nat :=
  (result.boxes.foldl (drawDetectionStep textSize fmtConf result.names imgId) h, imgId)

/-- The render call as made by `detect_route` (pyapi.py line 156):
`draw_detections(img.copy(), result)` — allocate a private copy of the
caller's buffer and run the renderer on the copy. -/
def renderCall (textSize : String → Nat × Nat) (fmtConf : ℚ → String)
    (result : YoloResult) (h : Heap) (imgId : Nat) : Heap × Nat :=
  let a := h.alloc (h.bufs imgId)
  draw_detections textSize fmtConf result a.1 a.2

/-- An uploaded multipart file: its raw bytes. -/
structure UploadedFile where
  content : List Nat

/-- An HTTP request as `detect_route` sees it: the mapping of multipart
field names to uploaded files (`request.files.get`). -/
structure Request where
  files : String → Option UploadedFile

/-- The process-wide observable state: the file-backed last-annotated
artifact at `LAST_PATH` (`none` = the file is absent). -/
structure ServerState where
  lastFile : Option (List Nat)

/-- Responses of `/detect`: a 400 error with message, or the success
JSON `{ok, free, occupied, total, openCount, occupiedCount}`. -/
inductive DetectResponse
  | err (status : Nat) (msg : String)
  | ok (free occupied total openCount occupiedCount : Nat)
deriving DecidableEq

/-- Responses of `/get_image`: 404 with an error message, or 200 with
the raw bytes of the stored artifact. -/
inductive ImageResponse
  | notFound (status : Nat) (msg : String)
  | file (status : Nat) (content : List Nat)
deriving DecidableEq

/-- `detect_route` (pyapi.py lines 131-175), parametric in the codec
(`decode` = `cv2.imdecode`, `encodeJpg` = `cv2.imwrite`'s JPEG encoding),
the detector `mdl`, and the renderer's external text metric and float
formatter.  Returns the response and the new server state. -/
def detect_route (decode : List Nat → Option Image) (mdl : Image → YoloResult)
    (textSize : String → Nat × Nat) (fmtConf : ℚ → String)
    (encodeJpg : Image → List Nat) (req : Request) (st : ServerState) :
    DetectResponse × ServerState :=
  match req.files "image" with
  | none => (DetectResponse.err 400 "missing file field \"image\"", st)
  | some f =>
    if f.content.isEmpty then (DetectResponse.err 400 "empty upload", st)
    else
      match decode f.content with
      | none => (DetectResponse.err 400 "decode failed (bad image bytes)", st)
      | some img =>
        let result := mdl img
        let counts := count_spots result
        let annotated := drawPure textSize fmtConf result img
        let total := counts.1 + counts.2
        (DetectResponse.ok counts.1 counts.2 total counts.1 counts.2,
         ⟨some (encodeJpg annotated)⟩)

/-- `get_image` (pyapi.py lines 178-192): 404 if the artifact file is
absent, otherwise 200 with its bytes. -/
def get_image (st : ServerState) : ImageResponse :=
  match st.lastFile with
  | none => ImageResponse.notFound 404 "No image available"
  | some bytes => ImageResponse.file 200 bytes

/-- Whether a `/detect` request passes all three input checks (field
present, non-empty, decodable). -/
def detectSucceeds (decode : List Nat → Option Image) (req : Request) : Bool :=
  match req.files "image" with
  | none => false
  | some f => !f.content.isEmpty && (decode f.content).isSome

/-- The artifact bytes a `/detect` request stores when it succeeds
(`none` when it fails one of the input checks). -/
def detectArtifact (decode : List Nat → Option Image) (mdl : Image → YoloResult)
    (textSize : String → Nat × Nat) (fmtConf : ℚ → String)
    (encodeJpg : Image → List Nat) (req : Request) : Option (List Nat) :=
  match req.files "image" with
  | none => none
  | some f =>
    if f.content.isEmpty then none
    else
      match decode f.content with
      | none => none
      | some img => some (encodeJpg (drawPure textSize fmtConf (mdl img) img))

/-- Run a sequence of `/detect` requests from a given server state,
threading the state. -/
def runDetects (decode : List Nat → Option Image) (mdl : Image → YoloResult)
    (textSize : String → Nat × Nat) (fmtConf : ℚ → String)
    (encodeJpg : Image → List Nat) (reqs : List Request) (st : ServerState) :
    ServerState :=
  reqs.foldl (fun s r => (detect_route decode mdl textSize fmtConf encodeJpg r s).2) st

/-- Last-writer-wins fold of a sequence of optional writes over an
initial slot value (the semantics of repeated unconditional overwrites
of the single cache slot). -/
def lastWrite (l : List (Option (List Nat))) (init : Option (List Nat)) :
    Option (List Nat) :=
  l.foldl (fun acc o => match o with | some b => some b | none => acc) init

/-- Concrete codec for witnesses: only the byte list `[1]` decodes. -/
def decode0 : List Nat → Option Image :=
  fun l => if l = [1] then some (Image.base 0) else none

/-- Concrete name mapping for witnesses: every class index is "Free". -/
def names0 : Nat → String := fun _ => "Free"

/-- Concrete detector for witnesses: one free box per image. -/
def mdl0 : Image → YoloResult :=
  fun _ => ⟨names0, [⟨(0, 0, 10, 10), 0, (0.87 : ℚ)⟩]⟩

/-- Concrete text metric for witnesses. -/
def textSize0 : String → Nat × Nat := fun _ => (40, 12)

/-- Concrete confidence formatter for witnesses. -/
def fmtConf0 : ℚ → String := fun _ => "0.87"

/-- Concrete JPEG encoder for witnesses. -/
def encodeJpg0 : Image → List Nat := fun _ => [7]

/-- A request carrying byte content `l` in the "image" field. -/
def reqWith (l : List Nat) : Request :=
  ⟨fun s => if s = "image" then some ⟨l⟩ else none⟩

/-- A request with no "image" field. -/
def reqMissing : Request := ⟨fun _ => none⟩

/-- A concrete heap for witnesses: one allocated buffer, id 0. -/
def heap0 : Heap := ⟨fun _ => Image.base 0, 1⟩

/-- Concrete name mapping for witnesses: every class index is "Occupied". -/
def names1 : Nat → String := fun _ => "Occupied"

/-- A second concrete detector for witnesses (used to show error paths
never consult the detector). -/
def mdl1 : Image → YoloResult := fun _ => ⟨names1, []⟩

/-- Concrete result for the counting witnesses. -/
def resA : YoloResult := ⟨names0, [⟨(0, 0, 10, 10), 0, (0.5 : ℚ)⟩]⟩

/-- A result with the same names and class indices as `resA` but
different boxes and confidences. -/
def resB : YoloResult := ⟨names0, [⟨(5, 5, 9, 9), 0, (0.9 : ℚ)⟩]⟩

section Proofs

theorem classify_free_iff (s : String) :
    classify s = Classification.Free ↔ pyLower s ∈ FREE_LABELS := by
  unfold classify
  by_cases h1 : pyLower s ∈ FREE_LABELS
  · simp [h1]
  · by_cases h2 : pyLower s ∈ OCC_LABELS <;> simp [h1, h2]

theorem classify_occ_iff (s : String) :
    classify s = Classification.Occupied ↔
      (pyLower s ∉ FREE_LABELS ∧ pyLower s ∈ OCC_LABELS) := by
  unfold classify
  by_cases h1 : pyLower s ∈ FREE_LABELS
  · simp [h1]
  · by_cases h2 : pyLower s ∈ OCC_LABELS <;> simp [h1, h2]

theorem classify_unknown_iff (s : String) :
    classify s = Classification.Unknown ↔
      (pyLower s ∉ FREE_LABELS ∧ pyLower s ∉ OCC_LABELS) := by
  unfold classify
  by_cases h1 : pyLower s ∈ FREE_LABELS
  · simp [h1]
  · by_cases h2 : pyLower s ∈ OCC_LABELS <;> simp [h1, h2]

theorem free_occ_disjoint (x : String) (h : x ∈ OCC_LABELS) : x ∉ FREE_LABELS := by
  simp only [OCC_LABELS, List.mem_cons, List.not_mem_nil, or_false] at h
  rcases h with rfl | rfl | rfl | rfl <;> decide

theorem count_go (n : Nat → String) (l : List Box) (a b : Nat) :
    l.foldl
      (fun acc x =>
        if FREE_LABELS.contains (pyLower (n x.cls)) then (acc.1 + 1, acc.2)
        else if OCC_LABELS.contains (pyLower (n x.cls)) then (acc.1, acc.2 + 1)
        else acc)
      (a, b)
    = (a + freeLen n l, b + occLen n l) := by
  induction l generalizing a b with
  | nil => simp [freeLen, occLen]
  | cons x t ih =>
    simp only [List.foldl_cons]
    by_cases h1 : FREE_LABELS.contains (pyLower (n x.cls)) = true
    · have hc : classify (n x.cls) = Classification.Free :=
        (classify_free_iff _).mpr (List.elem_iff.mp h1)
      rw [if_pos h1, ih, freeLen, occLen, hc]
      simp only [Prod.mk.injEq]
      omega
    · by_cases h2 : OCC_LABELS.contains (pyLower (n x.cls)) = true
      · have hc : classify (n x.cls) = Classification.Occupied :=
          (classify_occ_iff _).mpr
            ⟨fun hm => h1 (List.elem_iff.mpr hm), List.elem_iff.mp h2⟩
        rw [if_neg h1, if_pos h2, ih, freeLen, occLen, hc]
        simp only [Prod.mk.injEq]
        omega
      · have hc : classify (n x.cls) = Classification.Unknown :=
          (classify_unknown_iff _).mpr
            ⟨fun hm => h1 (List.elem_iff.mpr hm), fun hm => h2 (List.elem_iff.mpr hm)⟩
        rw [if_neg h1, if_neg h2, ih, freeLen, occLen, hc]
        simp only [Prod.mk.injEq]
        omega

theorem count_spots_eq (r : YoloResult) :
    count_spots r = (freeLen r.names r.boxes, occLen r.names r.boxes) := by
  obtain ⟨n, l⟩ := r
  unfold count_spots
  simpa using count_go n l 0 0

theorem freeLen_add_occLen (n : Nat → String) (l : List Box) :
    freeLen n l + occLen n l = countedLen n l := by
  induction l with
  | nil => simp [freeLen, occLen, countedLen]
  | cons x t ih =>
    rw [freeLen, occLen, countedLen]
    cases hc : classify (n x.cls) <;> simp [hc] <;> omega

theorem count_spots_eq_countAux (r : YoloResult) :
    count_spots r = countAux r.names (r.boxes.map Box.cls) := by
  unfold count_spots countAux
  rw [List.foldl_map]

/-- Claim C1: for every detection sequence the counts are non-negative
(they are naturals built by increments from 0), the reported total of a
successful `/detect` response equals free + occupied, Unknown-labelled
detections increment neither counter and are excluded from the total
(free + occupied = number of non-Unknown detections), and the empty
sequence yields zero counts. -/
theorem claim_C1_counting :
    (∀ r : YoloResult,
        (count_spots r).1 + (count_spots r).2 = countedLen r.names r.boxes) ∧
    (∀ n : Nat → String, count_spots ⟨n, []⟩ = (0, 0)) ∧
    (∀ decode mdl textSize fmtConf encodeJpg req st free occupied total oc cc,
        (detect_route decode mdl textSize fmtConf encodeJpg req st).1 =
          DetectResponse.ok free occupied total oc cc →
        total = free + occupied) := by
  refine ⟨?_, ?_, ?_⟩
  · intro r
    rw [count_spots_eq]
    exact freeLen_add_occLen r.names r.boxes
  · intro n
    rfl
  · intro decode mdl ts fm enc req st f oc t o2 c2 h
    unfold detect_route at h
    rcases hf : req.files "image" with _ | fl
    · simp [hf] at h
    · rw [hf] at h
      by_cases he : fl.content.isEmpty = true
      · simp [he] at h
      · simp only [he, if_false, Bool.false_eq_true] at h
        rcases hd : decode fl.content with _ | img
        · simp [hd] at h
        · rw [hd] at h
          simp only [DetectResponse.ok.injEq] at h
          omega

/-- Witness for C1: a concrete successful `/detect` request reporting
`free = 1`, `occupied = 0`, `total = 1`. -/
theorem claim_C1_witness :
    (detect_route decode0 mdl0 textSize0 fmtConf0 encodeJpg0 (reqWith [1])
        ⟨none⟩).1 = DetectResponse.ok 1 0 1 1 0 ∧ (1 : Nat) = 1 + 0 :=
  ⟨by decide,
   claim_C1_counting.2.2 decode0 mdl0 textSize0 fmtConf0 encodeJpg0 (reqWith [1])
     ⟨none⟩ 1 0 1 1 0 (by decide)⟩

/-- Claim C2: classification is total and case-insensitive: a label
whose case-folded form is in `FREE_LABELS` classifies Free, one in
`OCC_LABELS` classifies Occupied, any other string classifies Unknown
(no error path), and the outcome depends only on the case-folded label. -/
theorem claim_C2_classify_total :
    ∀ s : String,
      (pyLower s ∈ FREE_LABELS → classify s = Classification.Free) ∧
      (pyLower s ∈ OCC_LABELS → classify s = Classification.Occupied) ∧
      (pyLower s ∉ FREE_LABELS → pyLower s ∉ OCC_LABELS →
        classify s = Classification.Unknown) ∧
      (∀ t : String, pyLower s = pyLower t → classify s = classify t) := by
  intro s
  refine ⟨fun h => (classify_free_iff s).mpr h,
    fun h => (classify_occ_iff s).mpr ⟨free_occ_disjoint _ h, h⟩,
    fun h1 h2 => (classify_unknown_iff s).mpr ⟨h1, h2⟩,
    fun t ht => ?_⟩
  unfold classify
  rw [ht]

/-- Witness for C2: concrete labels in every category, including mixed
case, and case-insensitivity on a concrete pair. -/
theorem claim_C2_witness :
    classify "FREE" = Classification.Free ∧
    classify "Taken" = Classification.Occupied ∧
    classify "car" = Classification.Unknown ∧
    classify "VaCaNt" = classify "vacant" :=
  ⟨(claim_C2_classify_total "FREE").1 (by decide),
   (claim_C2_classify_total "Taken").2.1 (by decide),
   (claim_C2_classify_total "car").2.2.1 (by decide) (by decide),
   (claim_C2_classify_total "VaCaNt").2.2.2 "vacant" (by decide)⟩

/-- Claim C10: the spot counts depend only on the name mapping and the
sequence of class indices; two results agreeing on those yield equal
counts whatever their boxes and confidences. -/
theorem claim_C10_counts_ignore_boxes :
    ∀ r1 r2 : YoloResult, r1.names = r2.names →
      r1.boxes.map Box.cls = r2.boxes.map Box.cls →
      count_spots r1 = count_spots r2 := by
  intro r1 r2 hn hc
  rw [count_spots_eq_countAux r1, count_spots_eq_countAux r2, hn, hc]

/-- Witness for C10: two results with the same labels but different
boxes and confidences count identically. -/
theorem claim_C10_witness : count_spots resA = count_spots resB :=
  claim_C10_counts_ignore_boxes resA resB rfl rfl

/-- Claim C3: the three `/detect` input checks, in order: missing field,
empty payload, undecodable bytes; each returns 400 with its message and
leaves the state unchanged, and each is terminal (the later checks only
run when the earlier ones pass, as the hypotheses of the later conjuncts
record). -/
theorem claim_C3_detect_input_errors :
    ∀ decode mdl textSize fmtConf encodeJpg (st : ServerState),
      (∀ req : Request, req.files "image" = none →
        detect_route decode mdl textSize fmtConf encodeJpg req st =
          (DetectResponse.err 400 "missing file field \"image\"", st)) ∧
      (∀ (req : Request) (f : UploadedFile), req.files "image" = some f →
        f.content = [] →
        detect_route decode mdl textSize fmtConf encodeJpg req st =
          (DetectResponse.err 400 "empty upload", st)) ∧
      (∀ (req : Request) (f : UploadedFile), req.files "image" = some f →
        f.content ≠ [] → decode f.content = none →
        detect_route decode mdl textSize fmtConf encodeJpg req st =
          (DetectResponse.err 400 "decode failed (bad image bytes)", st)) := by
  intro decode mdl ts fm enc st
  refine ⟨?_, ?_, ?_⟩
  · intro req h
    unfold detect_route
    rw [h]
  · intro req f h hc
    unfold detect_route
    rw [h]
    simp [hc]
  · intro req f h hc hd
    unfold detect_route
    rw [h]
    simp [hc, hd]

/-- Witness for C3: the three error responses on concrete requests. -/
theorem claim_C3_witness :
    detect_route decode0 mdl0 textSize0 fmtConf0 encodeJpg0 reqMissing ⟨none⟩ =
      (DetectResponse.err 400 "missing file field \"image\"", ⟨none⟩) ∧
    detect_route decode0 mdl0 textSize0 fmtConf0 encodeJpg0 (reqWith []) ⟨none⟩ =
      (DetectResponse.err 400 "empty upload", ⟨none⟩) ∧
    detect_route decode0 mdl0 textSize0 fmtConf0 encodeJpg0 (reqWith [2]) ⟨none⟩ =
      (DetectResponse.err 400 "decode failed (bad image bytes)", ⟨none⟩) :=
  ⟨(claim_C3_detect_input_errors decode0 mdl0 textSize0 fmtConf0 encodeJpg0
      ⟨none⟩).1 reqMissing rfl,
   (claim_C3_detect_input_errors decode0 mdl0 textSize0 fmtConf0 encodeJpg0
      ⟨none⟩).2.1 (reqWith []) ⟨[]⟩ rfl rfl,
   (claim_C3_detect_input_errors decode0 mdl0 textSize0 fmtConf0 encodeJpg0
      ⟨none⟩).2.2 (reqWith [2]) ⟨[2]⟩ rfl (by decide) (by decide)⟩

/-- Claim C4: a `/detect` request failing an input check has no side
effects: the returned state is the input state (the cache artifact is
not written), and the whole outcome is independent of the detector, the
renderer externals and the encoder (none of them is invoked). -/
theorem claim_C4_error_paths_atomic :
    ∀ decode mdl mdl2 textSize textSize2 fmtConf fmtConf2 encodeJpg encodeJpg2
      (req : Request) (st : ServerState),
      detectSucceeds decode req = false →
      (detect_route decode mdl textSize fmtConf encodeJpg req st).2 = st ∧
      detect_route decode mdl textSize fmtConf encodeJpg req st =
        detect_route decode mdl2 textSize2 fmtConf2 encodeJpg2 req st := by
  intro decode mdl mdl2 ts ts2 fm fm2 enc enc2 req st h
  unfold detectSucceeds at h
  unfold detect_route
  rcases hf : req.files "image" with _ | f
  · exact ⟨rfl, rfl⟩
  · rw [hf] at h
    by_cases hce : f.content.isEmpty = true
    · simp [hce]
    · rcases hd : decode f.content with _ | img
      · simp [hce, hd]
      · simp [hce, hd] at h
  -- the success case contradicts the hypothesis

/-- Witness for C4: a missing-field request leaves the state unchanged
and its outcome is the same under two different detectors. -/
theorem claim_C4_witness :
    (detect_route decode0 mdl0 textSize0 fmtConf0 encodeJpg0 reqMissing
        ⟨none⟩).2 = ⟨none⟩ ∧
    detect_route decode0 mdl0 textSize0 fmtConf0 encodeJpg0 reqMissing ⟨none⟩ =
      detect_route decode0 mdl1 textSize0 fmtConf0 encodeJpg0 reqMissing ⟨none⟩ :=
  claim_C4_error_paths_atomic decode0 mdl0 mdl1 textSize0 textSize0 fmtConf0
    fmtConf0 encodeJpg0 encodeJpg0 reqMissing ⟨none⟩ (by decide)

theorem detect_route_state (decode : List Nat → Option Image)
    (mdl : Image → YoloResult) (ts : String → Nat × Nat) (fm : ℚ → String)
    (enc : Image → List Nat) (req : Request) (st : ServerState) :
    (detect_route decode mdl ts fm enc req st).2 =
      match detectArtifact decode mdl ts fm enc req with
      | some b => ⟨some b⟩
      | none => st := by
  unfold detect_route detectArtifact
  rcases hf : req.files "image" with _ | f
  · rfl
  · by_cases hce : f.content.isEmpty = true
    · simp [hce]
    · rcases hd : decode f.content with _ | img <;> simp [hce, hd]

theorem detectArtifact_isSome (decode : List Nat → Option Image)
    (mdl : Image → YoloResult) (ts : String → Nat × Nat) (fm : ℚ → String)
    (enc : Image → List Nat) (req : Request) :
    (detectArtifact decode mdl ts fm enc req).isSome = detectSucceeds decode req := by
  unfold detectArtifact detectSucceeds
  rcases hf : req.files "image" with _ | f
  · rfl
  · by_cases hce : f.content.isEmpty = true
    · simp [hce]
    · rcases hd : decode f.content with _ | img <;> simp [hce, hd]

theorem detectArtifact_none_iff (decode : List Nat → Option Image)
    (mdl : Image → YoloResult) (ts : String → Nat × Nat) (fm : ℚ → String)
    (enc : Image → List Nat) (req : Request) :
    detectArtifact decode mdl ts fm enc req = none ↔
      detectSucceeds decode req = false := by
  rw [← detectArtifact_isSome decode mdl ts fm enc req]
  cases detectArtifact decode mdl ts fm enc req <;> simp

theorem runDetects_lastFile (decode : List Nat → Option Image)
    (mdl : Image → YoloResult) (ts : String → Nat × Nat) (fm : ℚ → String)
    (enc : Image → List Nat) (reqs : List Request) :
    ∀ st : ServerState,
      (runDetects decode mdl ts fm enc reqs st).lastFile =
        lastWrite (reqs.map (detectArtifact decode mdl ts fm enc)) st.lastFile := by
  induction reqs with
  | nil => intro st; rfl
  | cons r t ih =>
    intro st
    have h1 : runDetects decode mdl ts fm enc (r :: t) st =
        runDetects decode mdl ts fm enc t ((detect_route decode mdl ts fm enc r st).2) := rfl
    have h2 : lastWrite ((r :: t).map (detectArtifact decode mdl ts fm enc)) st.lastFile =
        lastWrite (t.map (detectArtifact decode mdl ts fm enc))
          (match detectArtifact decode mdl ts fm enc r with
            | some b => some b
            | none => st.lastFile) := rfl
    rw [h1, ih, h2, detect_route_state]
    rcases hr : detectArtifact decode mdl ts fm enc r with _ | b <;> rfl

theorem lastWrite_eq_none_iff (l : List (Option (List Nat))) :
    ∀ init, (lastWrite l init = none ↔ (init = none ∧ ∀ o ∈ l, o = none)) := by
  induction l with
  | nil => intro init; simp [lastWrite]
  | cons o t ih =>
    intro init
    rcases o with _ | b
    · have hstep : lastWrite (none :: t) init = lastWrite t init := rfl
      rw [hstep, ih]
      simp
    · have hstep : lastWrite (some b :: t) init = lastWrite t (some b) := rfl
      rw [hstep, ih]
      simp

theorem lastWrite_all_none (l : List (Option (List Nat))) :
    ∀ init, (∀ o ∈ l, o = none) → lastWrite l init = init := by
  induction l with
  | nil => intro init _; rfl
  | cons o t ih =>
    intro init h
    have ho := h o (by simp)
    subst ho
    exact ih init (fun x hx => h x (by simp [hx]))

theorem lastWrite_append (l1 l2 : List (Option (List Nat))) (init : Option (List Nat)) :
    lastWrite (l1 ++ l2) init = lastWrite l2 (lastWrite l1 init) := by
  unfold lastWrite
  rw [List.foldl_append]

theorem get_image_notFound_iff (st : ServerState) :
    get_image st = ImageResponse.notFound 404 "No image available" ↔
      st.lastFile = none := by
  obtain ⟨o⟩ := st
  unfold get_image
  rcases o with _ | b <;> simp

/-- Claim C5: starting from a process state with no artifact, `/get_image`
answers 404 "No image available" exactly when no `/detect` request of the
trace has succeeded; once one has, it answers 200 with the bytes stored
by the most recent successful `/detect`. -/
theorem claim_C5_get_image_cache :
    ∀ decode mdl textSize fmtConf encodeJpg (reqs : List Request),
      (get_image (runDetects decode mdl textSize fmtConf encodeJpg reqs ⟨none⟩) =
          ImageResponse.notFound 404 "No image available"
        ↔ ∀ r ∈ reqs, detectSucceeds decode r = false) ∧
      (∀ pre (r : Request) post, reqs = pre ++ r :: post →
        detectSucceeds decode r = true →
        (∀ q ∈ post, detectSucceeds decode q = false) →
        ∃ b, detectArtifact decode mdl textSize fmtConf encodeJpg r = some b ∧
          get_image (runDetects decode mdl textSize fmtConf encodeJpg reqs ⟨none⟩) =
            ImageResponse.file 200 b) := by
  intro decode mdl ts fm enc reqs
  constructor
  · rw [get_image_notFound_iff, runDetects_lastFile, lastWrite_eq_none_iff]
    constructor
    · intro h r hr
      exact (detectArtifact_none_iff decode mdl ts fm enc r).mp
        (h.2 _ (List.mem_map_of_mem _ hr))
    · intro h
      refine ⟨rfl, ?_⟩
      intro o ho
      obtain ⟨r, hr, rfl⟩ := List.mem_map.mp ho
      exact (detectArtifact_none_iff decode mdl ts fm enc r).mpr (h r hr)
  · intro pre r post hreq hs hpost
    have hsome : (detectArtifact decode mdl ts fm enc r).isSome = true := by
      rw [detectArtifact_isSome]
      exact hs
    obtain ⟨b, hb⟩ := Option.isSome_iff_exists.mp hsome
    refine ⟨b, hb, ?_⟩
    have hlf : (runDetects decode mdl ts fm enc reqs ⟨none⟩).lastFile = some b := by
      rw [runDetects_lastFile, hreq, List.map_append, lastWrite_append, List.map_cons]
      have hstep : lastWrite
          (detectArtifact decode mdl ts fm enc r ::
            post.map (detectArtifact decode mdl ts fm enc))
          (lastWrite (pre.map (detectArtifact decode mdl ts fm enc))
            (ServerState.lastFile ⟨none⟩)) =
          lastWrite (post.map (detectArtifact decode mdl ts fm enc)) (some b) := by
        rw [hb]
        rfl
      rw [hstep]
      apply lastWrite_all_none
      intro o ho
      obtain ⟨q, hq, rfl⟩ := List.mem_map.mp ho
      exact (detectArtifact_none_iff decode mdl ts fm enc q).mpr (hpost q hq)
    unfold get_image
    rw [hlf]

/-- Witness for C5: in the trace [failing request, succeeding request,
failing request], `/get_image` serves the artifact of the middle one. -/
theorem claim_C5_witness :
    ∃ b, detectArtifact decode0 mdl0 textSize0 fmtConf0 encodeJpg0 (reqWith [1]) =
        some b ∧
      get_image (runDetects decode0 mdl0 textSize0 fmtConf0 encodeJpg0
        [reqMissing, reqWith [1], reqWith [2]] ⟨none⟩) = ImageResponse.file 200 b :=
  (claim_C5_get_image_cache decode0 mdl0 textSize0 fmtConf0 encodeJpg0
      [reqMissing, reqWith [1], reqWith [2]]).2 [reqMissing] (reqWith [1])
    [reqWith [2]] rfl (by decide)
    (by
      intro q hq
      rw [List.mem_singleton] at hq
      subst hq
      decide)

theorem drawDetectionStep_next (ts : String → Nat × Nat) (fm : ℚ → String)
    (names : Nat → String) (imgId : Nat) (h : Heap) (b : Box) :
    h.next ≤ (drawDetectionStep ts fm names imgId h b).next := by
  unfold drawDetectionStep Heap.alloc Heap.write
  by_cases hm : pyLower (names b.cls) ∈ FREE_LABELS <;> simp [hm]

theorem drawDetectionStep_bufs (ts : String → Nat × Nat) (fm : ℚ → String)
    (names : Nat → String) (imgId : Nat) (h : Heap) (b : Box)
    (hlt : imgId < h.next) :
    (drawDetectionStep ts fm names imgId h b).bufs imgId =
      drawOnePure ts fm names (h.bufs imgId) b ∧
    ∀ j, j ≠ imgId → j < h.next →
      (drawDetectionStep ts fm names imgId h b).bufs j = h.bufs j := by
  have hne : imgId ≠ h.next := Nat.ne_of_lt hlt
  unfold drawDetectionStep drawOnePure Heap.alloc Heap.write
  by_cases hm : pyLower (names b.cls) ∈ FREE_LABELS
  · constructor
    · simp [hm, hne]
    · intro j hj1 hj2
      have hjn : j ≠ h.next := Nat.ne_of_lt hj2
      simp [hm, hj1, hjn]
  · constructor
    · simp [hm]
    · intro j hj1 hj2
      simp [hm, hj1]

theorem draw_fold (ts : String → Nat × Nat) (fm : ℚ → String)
    (names : Nat → String) (imgId : Nat) (l : List Box) :
    ∀ h : Heap, imgId < h.next →
      (h.next ≤ (l.foldl (drawDetectionStep ts fm names imgId) h).next ∧
       (l.foldl (drawDetectionStep ts fm names imgId) h).bufs imgId =
         l.foldl (drawOnePure ts fm names) (h.bufs imgId) ∧
       ∀ j, j ≠ imgId → j < h.next →
         (l.foldl (drawDetectionStep ts fm names imgId) h).bufs j = h.bufs j) := by
  induction l with
  | nil => intro h hlt; exact ⟨Nat.le_refl _, rfl, fun j _ _ => rfl⟩
  | cons b t ih =>
    intro h hlt
    have hn := drawDetectionStep_next ts fm names imgId h b
    have hlt2 : imgId < (drawDetectionStep ts fm names imgId h b).next :=
      Nat.lt_of_lt_of_le hlt hn
    obtain ⟨hsc, hsp⟩ := drawDetectionStep_bufs ts fm names imgId h b hlt
    obtain ⟨ihn, ihc, ihp⟩ := ih (drawDetectionStep ts fm names imgId h b) hlt2
    refine ⟨Nat.le_trans hn ihn, ?_, ?_⟩
    · rw [List.foldl_cons, ihc, hsc, List.foldl_cons]
    · intro j hj1 hj2
      rw [List.foldl_cons, ihp j hj1 (Nat.lt_of_lt_of_le hj2 hn), hsp j hj1 hj2]

theorem renderCall_def (ts : String → Nat × Nat) (fm : ℚ → String)
    (r : YoloResult) (h : Heap) (imgId : Nat) :
    renderCall ts fm r h imgId =
      (r.boxes.foldl (drawDetectionStep ts fm r.names h.next)
        ⟨fun j => if j = h.next then h.bufs imgId else h.bufs j, h.next + 1⟩,
       h.next) := rfl

theorem renderCall_spec (ts : String → Nat × Nat) (fm : ℚ → String)
    (r : YoloResult) (h : Heap) (imgId : Nat) :
    ((renderCall ts fm r h imgId).1).bufs (renderCall ts fm r h imgId).2 =
      drawPure ts fm r (h.bufs imgId) ∧
    (∀ j, j < h.next → ((renderCall ts fm r h imgId).1).bufs j = h.bufs j) ∧
    h.next < ((renderCall ts fm r h imgId).1).next := by
  have hlt1 : h.next <
      (Heap.mk (fun j => if j = h.next then h.bufs imgId else h.bufs j)
        (h.next + 1)).next :=
    Nat.lt_succ_self _
  obtain ⟨fn, fc, fp⟩ := draw_fold ts fm r.names h.next r.boxes
    ⟨fun j => if j = h.next then h.bufs imgId else h.bufs j, h.next + 1⟩ hlt1
  simp only [renderCall_def]
  refine ⟨?_, ?_, ?_⟩
  · rw [fc]
    simp [drawPure]
  · intro j hj
    have hjne : j ≠ h.next := Nat.ne_of_lt hj
    rw [fp j hjne (Nat.lt_trans hj hlt1)]
    simp [hjne]
  · exact Nat.lt_of_lt_of_le hlt1 fn

/-- Claim C6: for a detection classified Free, the renderer produces, on
top of the working image and in this order: the filled label-background
rectangle from `(x1, max 0 (y1 - th - 6))` to `(x1 + tw + 8, y1)` blended
at 0.35/0.65 over the original, the white label text `"Free "` ++ the
formatted confidence at `(x1 + 4, y1 - 4)`, and the bounding box in
green (0,200,0) with 3px stroke. -/
theorem claim_C6_free_rendering :
    ∀ (textSize : String → Nat × Nat) (fmtConf : ℚ → String)
      (names : Nat → String) (img : Image) (b : Box),
      classify (names b.cls) = Classification.Free →
      drawOnePure textSize fmtConf names img b =
        Image.rect
          (Image.text
            (Image.blend
              (Image.rect img
                (pyInt b.xyxy.1,
                  max 0 (pyInt b.xyxy.2.1 -
                    (textSize ("Free " ++ fmtConf b.conf)).2 - 6))
                (pyInt b.xyxy.1 + (textSize ("Free " ++ fmtConf b.conf)).1 + 8,
                  pyInt b.xyxy.2.1)
                (0, 200, 0) (-1))
              (0.35 : ℚ) img (0.65 : ℚ) 0)
            ("Free " ++ fmtConf b.conf)
            (pyInt b.xyxy.1 + 4, pyInt b.xyxy.2.1 - 4) (0.6 : ℚ) (255, 255, 255) 2)
          (pyInt b.xyxy.1, pyInt b.xyxy.2.1)
          (pyInt b.xyxy.2.2.1, pyInt b.xyxy.2.2.2) (0, 200, 0) 3 := by
  intro ts fm names img b hc
  have hm : pyLower (names b.cls) ∈ FREE_LABELS := (classify_free_iff _).mp hc
  simp [drawOnePure, hm]

/-- Witness for C6: the fully evaluated rendering of a concrete Free
detection with confidence 0.87. -/
theorem claim_C6_witness :
    drawOnePure textSize0 fmtConf0 names0 (Image.base 0)
        ⟨(0, 0, 10, 10), 0, (0.87 : ℚ)⟩ =
      Image.rect
        (Image.text
          (Image.blend
            (Image.rect (Image.base 0)
              (pyInt (0 : ℚ),
                max 0 (pyInt (0 : ℚ) -
                  (textSize0 ("Free " ++ fmtConf0 (0.87 : ℚ))).2 - 6))
              (pyInt (0 : ℚ) + (textSize0 ("Free " ++ fmtConf0 (0.87 : ℚ))).1 + 8,
                pyInt (0 : ℚ))
              (0, 200, 0) (-1))
            (0.35 : ℚ) (Image.base 0) (0.65 : ℚ) 0)
          ("Free " ++ fmtConf0 (0.87 : ℚ))
          (pyInt (0 : ℚ) + 4, pyInt (0 : ℚ) - 4) (0.6 : ℚ) (255, 255, 255) 2)
        (pyInt (0 : ℚ), pyInt (0 : ℚ))
        (pyInt (10 : ℚ), pyInt (10 : ℚ)) (0, 200, 0) 3 :=
  claim_C6_free_rendering textSize0 fmtConf0 names0 (Image.base 0)
    ⟨(0, 0, 10, 10), 0, (0.87 : ℚ)⟩ (by decide)

/-- Claim C7: for a detection classified Occupied or Unknown, the
renderer draws only the bounding box, 1px stroke, color (50,50,200):
no text and no blend are added. -/
theorem claim_C7_nonfree_rendering :
    ∀ (textSize : String → Nat × Nat) (fmtConf : ℚ → String)
      (names : Nat → String) (img : Image) (b : Box),
      (classify (names b.cls) = Classification.Occupied ∨
        classify (names b.cls) = Classification.Unknown) →
      drawOnePure textSize fmtConf names img b =
        Image.rect img (pyInt b.xyxy.1, pyInt b.xyxy.2.1)
          (pyInt b.xyxy.2.2.1, pyInt b.xyxy.2.2.2) (50, 50, 200) 1 := by
  intro ts fm names img b hc
  have hl : pyLower (names b.cls) ∉ FREE_LABELS := by
    rcases hc with hc | hc
    · exact ((classify_occ_iff _).mp hc).1
    · exact ((classify_unknown_iff _).mp hc).1
  simp [drawOnePure, hl]

/-- Witness for C7: the rendering of a concrete Occupied detection is a
bare thin box. -/
theorem claim_C7_witness :
    drawOnePure textSize0 fmtConf0 names1 (Image.base 0)
        ⟨(0, 0, 10, 10), 0, (0.9 : ℚ)⟩ =
      Image.rect (Image.base 0) (pyInt (0 : ℚ), pyInt (0 : ℚ))
        (pyInt (10 : ℚ), pyInt (10 : ℚ)) (50, 50, 200) 1 :=
  claim_C7_nonfree_rendering textSize0 fmtConf0 names1 (Image.base 0)
    ⟨(0, 0, 10, 10), 0, (0.9 : ℚ)⟩ (Or.inl (by decide))

/-- Claim C8: the render call of `detect_route`
(`draw_detections(img.copy(), result)`) never mutates the caller's
buffer: after the call, the buffer that held the decoded image has
exactly its previous content; only the private copy and fresh overlay
buffers are written. -/
theorem claim_C8_render_no_mutation :
    ∀ (textSize : String → Nat × Nat) (fmtConf : ℚ → String) (r : YoloResult)
      (h : Heap) (imgId : Nat), imgId < h.next →
      ((renderCall textSize fmtConf r h imgId).1).bufs imgId = h.bufs imgId := by
  intro ts fm r h imgId hlt
  exact (renderCall_spec ts fm r h imgId).2.1 imgId hlt

/-- Witness for C8: rendering over a concrete one-buffer heap leaves the
caller's buffer untouched. -/
theorem claim_C8_witness :
    ((renderCall textSize0 fmtConf0 (mdl0 (Image.base 0)) heap0 0).1).bufs 0 =
      heap0.bufs 0 :=
  claim_C8_render_no_mutation textSize0 fmtConf0 (mdl0 (Image.base 0)) heap0 0
    (by decide)

/-- Claim C9: rendering is deterministic and a pure function of the
(image, detections) pair: the output buffer's content is `drawPure` of
the input content, and a second render call on the same pair — even
after the first call has grown and written the heap — produces the
identical image value. -/
theorem claim_C9_render_deterministic :
    ∀ (textSize : String → Nat × Nat) (fmtConf : ℚ → String) (r : YoloResult)
      (h : Heap) (imgId : Nat), imgId < h.next →
      ((renderCall textSize fmtConf r h imgId).1).bufs
          (renderCall textSize fmtConf r h imgId).2 =
        drawPure textSize fmtConf r (h.bufs imgId) ∧
      ((renderCall textSize fmtConf r
            ((renderCall textSize fmtConf r h imgId).1) imgId).1).bufs
          (renderCall textSize fmtConf r
            ((renderCall textSize fmtConf r h imgId).1) imgId).2 =
        ((renderCall textSize fmtConf r h imgId).1).bufs
          (renderCall textSize fmtConf r h imgId).2 := by
  intro ts fm r h imgId hlt
  obtain ⟨c1, p1, n1⟩ := renderCall_spec ts fm r h imgId
  obtain ⟨c2, _, _⟩ := renderCall_spec ts fm r ((renderCall ts fm r h imgId).1)
    imgId
  refine ⟨c1, ?_⟩
  rw [c2, c1, p1 imgId hlt]

/-- Witness for C9: two consecutive render calls on the concrete heap
agree, and match the pure rendering of the input content. -/
theorem claim_C9_witness :
    ((renderCall textSize0 fmtConf0 (mdl0 (Image.base 0)) heap0 0).1).bufs
        (renderCall textSize0 fmtConf0 (mdl0 (Image.base 0)) heap0 0).2 =
      drawPure textSize0 fmtConf0 (mdl0 (Image.base 0)) (heap0.bufs 0) ∧
    ((renderCall textSize0 fmtConf0 (mdl0 (Image.base 0))
          ((renderCall textSize0 fmtConf0 (mdl0 (Image.base 0)) heap0 0).1) 0).1).bufs
        (renderCall textSize0 fmtConf0 (mdl0 (Image.base 0))
          ((renderCall textSize0 fmtConf0 (mdl0 (Image.base 0)) heap0 0).1) 0).2 =
      ((renderCall textSize0 fmtConf0 (mdl0 (Image.base 0)) heap0 0).1).bufs
        (renderCall textSize0 fmtConf0 (mdl0 (Image.base 0)) heap0 0).2 :=
  claim_C9_render_deterministic textSize0 fmtConf0 (mdl0 (Image.base 0)) heap0 0
    (by decide)

end Proofs

end ParkingLot
